import Mathlib

/-!
Verification of the SenangWebs Index (SWI) core: a shallow embedding of
`src/js/swi.js` (class `SenangWebsIndex`), covering the configuration
normalizer (`_parseSearchConfig`, `_parsePaginationConfig`), the data
loader (`_loadData`), the search engine (`search`), the pagination
engine (`_getPaginatedData`, `goToPage`, the `totalPages` formula of
`_renderPagination`/`goToPage`), the view renderer (`render`, abstracted
to its observable output), and the trailing-edge debounce (`_debounce`).

JavaScript machine values relevant to the claims are embedded explicitly:
field values carry JS truthiness and `toString` semantics, property
lookup of a missing key yields `undefined`, and the property key
`undefined` coerces to the string "undefined".
-/

namespace SWI

/-- A scalar-ish JS field value as stored in a record: string, number,
boolean, `null`, or `undefined`. -/
inductive Value where
  | vNull
  | vUndefined
  | vBool (b : Bool)
  | vNum (n : Int)
  | vStr (s : String)
deriving DecidableEq

/-- JS truthiness of a field value (`value &&` in the source). -/
def Value.truthy : Value → Bool
  | .vNull => false
  | .vUndefined => false
  | .vBool b => b
  | .vNum n => n != 0
  | .vStr s => s != ""

/-- JS `value.toString()` for the embedded scalar values. -/
def Value.toStr : Value → String
  | .vNull => "null"
  | .vUndefined => "undefined"
  | .vBool b => if b then "true" else "false"
  | .vNum n => toString n
  | .vStr s => s

/-- A Record: an open-ended mapping from field name to scalar-ish value,
embedded as an association list (first binding wins, as JS objects have
unique keys). -/
abbrev Record := List (String × Value)

/-- JS property access `item[key]`: the first binding for `key`, or
`undefined` when the key is absent. -/
def getField (item : Record) (key : String) : Value :=
  match item.find? (fun p => p.1 == key) with
  | some p => p.2
  | none => .vUndefined

/-- `pat` occurs at the head of `hay` (character-list form). -/
def leadsWith : List Char → List Char → Bool
  | [], _ => true
  | _ :: _, [] => false
  | p :: ps, h :: hs => p == h && leadsWith ps hs

/-- `pat` occurs somewhere in `hay` (character-list form). -/
def containsSub (hay pat : List Char) : Bool :=
  match hay with
  | [] => leadsWith pat []
  | _ :: hs => leadsWith pat hay || containsSub hs pat

/-- JS `hay.includes(pat)`: substring containment. -/
def strIncludes (hay pat : String) : Bool :=
  containsSub hay.toList pat.toList

/-- JS `s.trim()`: strip leading and trailing whitespace. -/
def jsTrim (s : String) : String :=
  String.mk (((s.toList.dropWhile Char.isWhitespace).reverse.dropWhile
    Char.isWhitespace).reverse)

/-- JS `s.toLowerCase()` on the character range the claims exercise. -/
def jsToLower (s : String) : String :=
  String.mk (s.toList.map Char.toLower)

/-- The raw `searchKey` value as it sits in the normalized configuration:
absent (`undefined`), a single field name, or an array of field names. -/
inductive KeySpec where
  | undefKey
  | str (s : String)
  | arr (ks : List String)
deriving DecidableEq

/-- JS truthiness of a `searchKey` value (arrays are always truthy,
`undefined` and the empty string are falsy). -/
def KeySpec.truthy : KeySpec → Bool
  | .undefKey => false
  | .str s => s != ""
  | .arr _ => true

/-- `Array.isArray(searchKey) ? searchKey : [searchKey]`, followed by the
JS property-key coercion performed by `item[key]`: the key `undefined`
coerces to the property name "undefined". -/
def effectiveKeys : KeySpec → List String
  | .undefKey => ["undefined"]
  | .str s => [s]
  | .arr ks => ks

/-- The instance state of one `SenangWebsIndex` object, restricted to the
fields the data-to-view engine reads: `this.data`, `this.filteredData`,
`this.currentPage`, `this.searchConfig.searchKey`,
`this.paginationConfig.enabled` / `.itemsPerPage`, and whether a
pagination container element is attached. -/
structure SWIState where
  data : List Record
  filteredData : List Record
  currentPage : Nat
  searchKey : KeySpec
  paginationEnabled : Bool
  itemsPerPage : Nat
  hasPaginationEl : Bool
deriving DecidableEq

/-- One search-key test from `search`:
`value && value.toString().toLowerCase().includes(lowerQuery)`. -/
def matchesItem (searchKeys : List String) (lowerQuery : String) (item : Record) : Bool :=
  searchKeys.any fun key =>
    let value := getField item key
    value.truthy && strIncludes (jsToLower value.toStr) lowerQuery

/-- `SenangWebsIndex.search(query)` (source lines 239-260): blank queries
restore a copy of the dataset, other queries filter it; `currentPage` is
reset to 1. -/
def search (query : String) (s : SWIState) : SWIState :=
  let searchKeys := effectiveKeys s.searchKey
  let filtered :=
    if query = "" ∨ jsTrim query = "" then s.data
    else s.data.filter (matchesItem searchKeys (jsToLower query))
  { s with filteredData := filtered, currentPage := 1 }

/-- `SenangWebsIndex._getPaginatedData` (source lines 310-318):
`filteredData.slice(start, start + itemsPerPage)` with
`start = (currentPage - 1) * itemsPerPage`. -/
def getPaginatedData (s : SWIState) : List Record :=
  if !s.paginationEnabled then s.filteredData
  else
    let start := (s.currentPage - 1) * s.itemsPerPage
    (s.filteredData.drop start).take s.itemsPerPage

/-- `Math.ceil(filteredData.length / itemsPerPage)` as computed in
`_renderPagination` (line 324) and `goToPage` (line 390), for a positive
`itemsPerPage` expressed as the rounded-up natural division. -/
def totalPages (s : SWIState) : Nat :=
  (s.filteredData.length + s.itemsPerPage - 1) / s.itemsPerPage

/-- `SenangWebsIndex.goToPage(pageNumber)` (source lines 389-398). The
boolean records whether a render was triggered; out-of-range page numbers
leave the state untouched and render nothing. -/
def goToPage (pageNumber : Int) (s : SWIState) : SWIState × Bool :=
  if pageNumber < 1 ∨ pageNumber > (totalPages s : Int) then (s, false)
  else ({ s with currentPage := pageNumber.toNat }, true)

/-- The observable output of `SenangWebsIndex.render` (source lines
265-305): either the empty-state block (with its message and whether the
pagination region was cleared), or the rendered page slice (and whether
pagination controls were drawn). -/
inductive RenderOutput where
  | emptyState (message : String) (paginationCleared : Bool)
  | items (slice : List Record) (paginationDrawn : Bool)
deriving DecidableEq

/-- The empty-dataset message of `render`. -/
def noDataMessage : String := "No data available"

/-- The no-match message of `render`. -/
def noResultsMessage : String := "No results found. Try a different search term."

/-- `SenangWebsIndex.render` abstracted to its observable output. -/
def render (s : SWIState) : RenderOutput :=
  let paginatedData := getPaginatedData s
  if paginatedData.length = 0 then
    let message := if s.data.length = 0 then noDataMessage else noResultsMessage
    .emptyState message (s.paginationEnabled && s.hasPaginationEl)
  else
    .items paginatedData (s.paginationEnabled && s.hasPaginationEl)

/-- The raw `search` constructor option: absent/falsy, a boolean, or an
object literal. In the object form, `enabled` carries the raw JS value of
that property when present (only the literal `false` disables, per
`search.enabled !== false`), and `searchKey` is absent or a key spec. -/
inductive RawSearch where
  | absent
  | bool (b : Bool)
  | obj (enabled : Option Value) (searchKey : Option KeySpec)
deriving DecidableEq

/-- The normalized search configuration, restricted to the fields the
engine reads. In the absent/boolean branches of the source the returned
object has no `searchKey` property at all, so reading it yields
`undefined` (`KeySpec.undefKey`). -/
structure SearchConfig where
  enabled : Bool
  searchKey : KeySpec
deriving DecidableEq

/-- `SenangWebsIndex._parseSearchConfig` (source lines 54-70). -/
def parseSearchConfig : RawSearch → SearchConfig
  | .absent => { enabled := false, searchKey := .undefKey }
  | .bool b => { enabled := b, searchKey := .undefKey }
  | .obj en sk =>
      { enabled := en != some (.vBool false)
        searchKey :=
          match sk with
          | some k => if k.truthy then k else .str "name"
          | none => .str "name" }

/-- The raw `pagination` constructor option, mirrored like `RawSearch`;
`itemsPerPage`, when present, is an integer. -/
inductive RawPagination where
  | absent
  | bool (b : Bool)
  | obj (enabled : Option Value) (itemsPerPage : Option Int)
deriving DecidableEq

/-- The normalized pagination configuration. `itemsPerPage` is an
integer because the source's `pagination.itemsPerPage || 10` lets any
nonzero value through, negative values included. -/
structure PaginationConfig where
  enabled : Bool
  itemsPerPage : Int
deriving DecidableEq

/-- `SenangWebsIndex._parsePaginationConfig` (source lines 75-90);
`pagination.itemsPerPage || 10` replaces only falsy values (absent, 0)
with the default 10. -/
def parsePaginationConfig : RawPagination → PaginationConfig
  | .absent => { enabled := false, itemsPerPage := 10 }
  | .bool b => { enabled := b, itemsPerPage := 10 }
  | .obj en ipp =>
      { enabled := en != some (.vBool false)
        itemsPerPage :=
          match ipp with
          | some n => if n != 0 then n else 10
          | none => 10 }

/-- A JSON array element as classified by `typeof` in `_loadData`:
a plain object, `null`, a nested array, or a primitive. -/
inductive JSItem where
  | itemObj (r : Record)
  | itemNull
  | itemArr (len : Nat)
  | itemStr (s : String)
  | itemNum (n : Int)
  | itemBool (b : Bool)
deriving DecidableEq

/-- JS `typeof x === "object"`: true for plain objects, `null`, and
arrays. -/
def JSItem.typeofIsObject : JSItem → Bool
  | .itemObj _ => true
  | .itemNull => true
  | .itemArr _ => true
  | _ => false

/-- An item is a Record in the sense of the data model: a plain object
mapping field names to values (`null` and arrays are not Records). -/
def JSItem.isRecord : JSItem → Bool
  | .itemObj _ => true
  | _ => false

/-- The JSON payload a successful fetch resolves to: an array of items,
or some non-array JSON value. -/
inductive Payload where
  | pArr (items : List JSItem)
  | pNonArray
deriving DecidableEq

/-- The outcome reported by the opaque fetch capability:
`response.ok` false with its status, or a resolved JSON payload. -/
inductive FetchResult where
  | failure (status : Nat) (statusText : String)
  | success (payload : Payload)
deriving DecidableEq

/-- `this.dataSource`: a literal array, or a remote-resource identifier
together with what fetching it reports. -/
inductive DataSource where
  | localArr (items : List JSItem)
  | remote (result : FetchResult)
deriving DecidableEq

/-- The outcome of `_loadData`: the loaded item sequence, or a thrown
error message. -/
inductive LoadResult where
  | ok (items : List JSItem)
  | err (msg : String)
deriving DecidableEq

/-- `data.length > 0 && typeof data[0] !== "object"`. -/
def firstNotObject : List JSItem → Bool
  | [] => false
  | x :: _ => !x.typeofIsObject

/-- `SenangWebsIndex._loadData` (source lines 175-210), with the fetch
capability abstracted to its reported `FetchResult`. -/
def loadData : DataSource → LoadResult
  | .localArr items =>
      if firstNotObject items then .err "SWI: Data items must be objects"
      else .ok items
  | .remote (.failure status statusText) =>
      .err ("HTTP " ++ toString status ++ ": " ++ statusText)
  | .remote (.success .pNonArray) =>
      .err "Data must be an array of objects"
  | .remote (.success (.pArr items)) =>
      if firstNotObject items then .err "Data items must be objects"
      else .ok items

/-- The `data`/`filteredData` pair `_loadData` assigns on success. -/
structure LoadState where
  data : List JSItem
  filteredData : List JSItem
deriving DecidableEq

/-- Applying a load outcome to the instance: on success both `this.data`
and `this.filteredData` receive the loaded sequence
(`this.filteredData = [...this.data]`); a thrown error leaves no new
state. -/
def applyLoad : LoadResult → Option LoadState
  | .ok items => some { data := items, filteredData := items }
  | .err _ => none

/-- The instance state right after construction and a successful load of
dataset `d` under a fixed configuration: `currentPage` is 1 and
`filteredData` is a copy of `data`. -/
def initState (d : List Record) (sk : KeySpec) (pe : Bool) (ipp : Nat) (hel : Bool) :
    SWIState :=
  { data := d, filteredData := d, currentPage := 1, searchKey := sk
    paginationEnabled := pe, itemsPerPage := ipp, hasPaginationEl := hel }

/-- The instance states reachable through construction, data load, and
any interleaving of `search` and `goToPage` calls, for a fixed
configuration. -/
inductive Reachable (sk : KeySpec) (pe : Bool) (ipp : Nat) (hel : Bool) : SWIState → Prop where
  | loaded (d : List Record) : Reachable sk pe ipp hel (initState d sk pe ipp hel)
  | searched {s : SWIState} (q : String) :
      Reachable sk pe ipp hel s → Reachable sk pe ipp hel (search q s)
  | paged {s : SWIState} (n : Int) :
      Reachable sk pe ipp hel s → Reachable sk pe ipp hel (goToPage n s).1

/-- The trailing-edge debounce of `_debounce` (source lines 95-101),
run over a chronological list of `(time, input value)` events starting
from a pending-timer state: an event whose time has passed the pending
deadline lets the pending call fire first; otherwise the pending timer
is cleared; either way a fresh timer for this event's value is set
`wait` ticks ahead. After the last event the remaining timer fires.
The result lists the argument of every executed `search` call in
order. -/
def processEvents (wait : Nat) :
    List (Nat × String) → Option (Nat × String) → List String
  | [], none => []
  | [], some (_, v) => [v]
  | (t, v) :: rest, none => processEvents wait rest (some (t + wait, v))
  | (t, v) :: rest, some (ft, pv) =>
      if ft ≤ t then pv :: processEvents wait rest (some (t + wait, v))
      else processEvents wait rest (some (t + wait, v))

/-- Every two consecutive events of the list are less than `wait` ticks
apart. -/
def gapsWithin (wait : Nat) : List (Nat × String) → Bool
  | (t1, _) :: (t2, v2) :: rest =>
      decide (t2 < t1 + wait) && gapsWithin wait ((t2, v2) :: rest)
  | _ => true

/-! ## Specification-side definitions

These follow the wording of the specification, to be compared with the
definitions above that follow the source. -/

/-- The matching predicate exactly as the specification words it: a
record is kept when at least one search key yields a field value whose
string form, lower-cased, contains the lower-cased query as a substring;
missing and null field values are treated as non-matching. -/
def specMatches (searchKeys : List String) (query : String) (item : Record) : Bool :=
  searchKeys.any fun key =>
    match item.find? (fun p => p.1 == key) with
    | none => false
    | some (_, .vNull) => false
    | some (_, v) => strIncludes (jsToLower v.toStr) (jsToLower query)

/-- One key of the amended matching predicate: a field value matches
only when it is truthy in the JS sense — missing, null, undefined,
false, 0 and the empty string are all non-matching — and its string
form, lower-cased, contains the lower-cased query as a substring. -/
def amendedKeyMatch (query : String) (item : Record) (key : String) : Bool :=
  match item.find? (fun p => p.1 == key) with
  | none => false
  | some (_, .vUndefined) => false
  | some (_, .vNull) => false
  | some (_, .vBool false) => false
  | some (_, .vBool true) =>
      strIncludes (jsToLower (Value.vBool true).toStr) (jsToLower query)
  | some (_, .vNum n) =>
      if n = 0 then false
      else strIncludes (jsToLower (Value.vNum n).toStr) (jsToLower query)
  | some (_, .vStr t) =>
      if t = "" then false
      else strIncludes (jsToLower (Value.vStr t).toStr) (jsToLower query)

/-- The amended matching predicate: some search key passes
`amendedKeyMatch`. -/
def amendedMatches (searchKeys : List String) (query : String) (item : Record) : Bool :=
  searchKeys.any (amendedKeyMatch query item)

/-- The load-failure condition exactly as claim C5 states it: the fetch
reports a non-success status, the resolved payload is not an array, or
the sequence is non-empty and its first element is not a Record. -/
def claimLoadFails : DataSource → Bool
  | .localArr [] => false
  | .localArr (x :: _) => !x.isRecord
  | .remote (.failure _ _) => true
  | .remote (.success .pNonArray) => true
  | .remote (.success (.pArr [])) => false
  | .remote (.success (.pArr (x :: _))) => !x.isRecord

/-- The load-failure condition the source implements: the first-element
check uses `typeof`, which accepts `null` and arrays as objects. -/
def codeLoadFails : DataSource → Bool
  | .localArr items => firstNotObject items
  | .remote (.failure _ _) => true
  | .remote (.success .pNonArray) => true
  | .remote (.success (.pArr items)) => firstNotObject items

/-- The total-page count as claim C3 words it:
`ceil(|FilteredView| / itemsPerPage)` floored at 1. -/
def specTotalPages (s : SWIState) : Nat := max 1 (totalPages s)

/-! ## Concrete fixtures used by counterexamples and witnesses -/

/-- A record whose only field holds the number 0. -/
def zeroRecord : Record := [("count", Value.vNum 0)]

/-- A one-record dataset state searching on the field "count". -/
def zeroState : SWIState :=
  { data := [zeroRecord], filteredData := [zeroRecord], currentPage := 1
    searchKey := .str "count", paginationEnabled := false, itemsPerPage := 10
    hasPaginationEl := false }

/-- A paginated state whose FilteredView is empty. -/
def emptyFVState : SWIState :=
  { data := [zeroRecord], filteredData := [], currentPage := 1
    searchKey := .str "count", paginationEnabled := true, itemsPerPage := 10
    hasPaginationEl := true }

/-- The record with field `id = i`. -/
def idRecord (i : Nat) : Record := [("id", Value.vNum i)]

/-- A 25-record dataset. -/
def dataset25 : List Record := (List.range 25).map idRecord

/-- The 25-record dataset paginated ten to a page, open at page `p`. -/
def state25 (p : Nat) : SWIState :=
  { data := dataset25, filteredData := dataset25, currentPage := p
    searchKey := .str "id", paginationEnabled := true, itemsPerPage := 10
    hasPaginationEl := true }

/-- The two-field record of the spec's multi-field search test. -/
def widgetRecord : Record :=
  [("name", Value.vStr "Widget"), ("category", Value.vStr "Tools")]

/-- A one-record state searching across the fields "name" and
"category". -/
def widgetState : SWIState :=
  { data := [widgetRecord], filteredData := [widgetRecord], currentPage := 1
    searchKey := .arr ["name", "category"], paginationEnabled := false
    itemsPerPage := 10, hasPaginationEl := false }

/-- A one-record state whose search option was the boolean `true`, so
its normalized `searchKey` is `undefined`. -/
def boolTrueState : SWIState :=
  { data := [widgetRecord], filteredData := [widgetRecord], currentPage := 1
    searchKey := .undefKey, paginationEnabled := false, itemsPerPage := 10
    hasPaginationEl := false }

/-! ## Helper lemmas -/

/-- Per key, the source's truthiness-guarded test coincides with the
amended predicate's explicit case split. -/
theorem keyTest_eq_amended (q : String) (item : Record) (key : String) :
    ((getField item key).truthy &&
      strIncludes (jsToLower (getField item key).toStr) (jsToLower q)) =
    amendedKeyMatch q item key := by
  unfold getField amendedKeyMatch
  cases hf : item.find? (fun p => p.1 == key) with
  | none => simp [Value.truthy]
  | some p =>
    obtain ⟨k, v⟩ := p
    cases v with
    | vNull => simp [Value.truthy]
    | vUndefined => simp [Value.truthy]
    | vBool b => cases b <;> simp [Value.truthy]
    | vNum n =>
      by_cases hn : n = 0 <;> simp [Value.truthy, hn]
    | vStr t =>
      by_cases ht : t = "" <;> simp [Value.truthy, ht]

/-- The source's matching test equals the amended predicate. -/
theorem matchesItem_eq_amended (keys : List String) (q : String) (item : Record) :
    matchesItem keys (jsToLower q) item = amendedMatches keys q item := by
  induction keys with
  | nil => rfl
  | cons key rest ih =>
    simp only [matchesItem, amendedMatches, List.any_cons] at *
    rw [ih, keyTest_eq_amended]

/-! ## Claim theorems -/

/-- Claim C1 is refuted as stated: the record whose "count" field holds
the number 0 is neither missing nor null for the search key "count",
and its string form "0" contains the non-blank query "0", so the claim
keeps it in FilteredView — yet `search` drops it, because the source
treats every JS-falsy field value as non-matching. -/
theorem search_missing_null_only_refuted :
    ¬("0" = "" ∨ jsTrim "0" = "") ∧
    zeroState.data.filter (specMatches (effectiveKeys zeroState.searchKey) "0")
      = [zeroRecord] ∧
    (search "0" zeroState).filteredData = [] := by
  refine ⟨by decide, by decide, by decide⟩

/-- Claim C1 (amended): a blank (empty or all-whitespace) query restores
FilteredView to a full copy of Dataset; any other query keeps exactly
the records, in original relative order, for which at least one search
key yields a JS-truthy field value whose string form, lower-cased,
contains the lower-cased query as a substring — falsy field values
(missing, null, undefined, false, 0, the empty string) are all
non-matching rather than an error. -/
theorem search_filteredView_characterization (s : SWIState) (q : String) :
    ((q = "" ∨ jsTrim q = "") →
      (search q s).filteredData = s.data ∧
      (search q s).filteredData.length = s.data.length) ∧
    (¬(q = "" ∨ jsTrim q = "") →
      (search q s).filteredData =
        s.data.filter (amendedMatches (effectiveKeys s.searchKey) q)) := by
  constructor
  · intro h
    simp [search, h]
  · intro h
    simp only [search, if_neg h]
    exact List.filter_congr (fun a _ => matchesItem_eq_amended _ q a)

/-- Witness for the amended claim C1: the spec's multi-field test —
query "tool" matches `{name: "Widget", category: "Tools"}` on the
"category" field. -/
theorem search_filteredView_characterization_witness :
    (search "tool" widgetState).filteredData =
      widgetState.data.filter
        (amendedMatches (effectiveKeys widgetState.searchKey) "tool") ∧
    (search "tool" widgetState).filteredData = [widgetRecord] :=
  ⟨(search_filteredView_characterization widgetState "tool").2 (by decide),
   by decide⟩

/-- Claim C2: `_getPaginatedData` returns the whole FilteredView when
pagination is disabled; when enabled it returns the half-open slice
`[(currentPage-1)·itemsPerPage, currentPage·itemsPerPage)` of
FilteredView clipped to its bounds (characterized element-by-element and
by its length). Concretely, 25 records at 10 per page give pages of
10, 10 and 5 records, and 3 total pages. -/
theorem getPaginatedData_slice_spec (s : SWIState) (hc : 1 ≤ s.currentPage) :
    (s.paginationEnabled = false → getPaginatedData s = s.filteredData) ∧
    (s.paginationEnabled = true →
      (∀ i : Nat, (getPaginatedData s)[i]? =
        if i < s.itemsPerPage then
          s.filteredData[(s.currentPage - 1) * s.itemsPerPage + i]?
        else none) ∧
      (getPaginatedData s).length =
        min s.itemsPerPage
          (s.filteredData.length - (s.currentPage - 1) * s.itemsPerPage)) ∧
    (getPaginatedData (state25 1) = (List.range 10).map idRecord ∧
     getPaginatedData (state25 2) = (List.range 10).map (fun i => idRecord (10 + i)) ∧
     getPaginatedData (state25 3) = (List.range 5).map (fun i => idRecord (20 + i)) ∧
     (getPaginatedData (state25 3)).length = 5 ∧
     totalPages (state25 1) = 3) := by
  refine ⟨?_, ?_, by decide⟩
  · intro h
    simp [getPaginatedData, h]
  · intro h
    constructor
    · intro i
      simp only [getPaginatedData, h, Bool.not_true, Bool.false_eq_true, if_false]
      rw [List.getElem?_take]
      split
      · rw [List.getElem?_drop]
      · rfl
    · simp [getPaginatedData, h, List.length_take, List.length_drop]

/-- Witness for claim C2: page 2 of the 25-record dataset. -/
theorem getPaginatedData_slice_spec_witness :
    getPaginatedData (state25 2) = (List.range 10).map (fun i => idRecord (10 + i)) :=
  (getPaginatedData_slice_spec (state25 2) (by decide)).2.2.2.1

/-- Claim C3 is refuted as stated: on an empty FilteredView the claim's
floored page count is 1, so `goToPage(1)` should set `currentPage := 1`
and trigger a render — but the source computes
`totalPages = ceil(0/10) = 0` without flooring and silently ignores the
call, rendering nothing. -/
theorem goToPage_floor_refuted :
    specTotalPages emptyFVState = 1 ∧
    (1 : Int) ≥ 1 ∧ (1 : Int) ≤ (specTotalPages emptyFVState : Int) ∧
    goToPage 1 emptyFVState = (emptyFVState, false) := by
  refine ⟨by decide, by decide, by decide, by decide⟩

/-- Claim C3 (amended): `goToPage(n)` is a no-op (state unchanged, no
render) when `n` is outside `[1, totalPages]` where
`totalPages = ceil(|FilteredView| / itemsPerPage)` with no flooring —
in particular every call is a no-op while FilteredView is empty —
and otherwise sets `currentPage := n` and triggers a render. -/
theorem goToPage_range_spec (s : SWIState) (n : Int) :
    ((n < 1 ∨ n > (totalPages s : Int)) → goToPage n s = (s, false)) ∧
    ((1 ≤ n ∧ n ≤ (totalPages s : Int)) →
      goToPage n s = ({ s with currentPage := n.toNat }, true)) ∧
    (s.filteredData = [] → goToPage n s = (s, false)) := by
  refine ⟨?_, ?_, ?_⟩
  · intro h
    simp [goToPage, h]
  · intro h
    have hcond : ¬(n < 1 ∨ n > (totalPages s : Int)) := by omega
    simp [goToPage, hcond]
  · intro h
    have htp : totalPages s = 0 := by
      simp only [totalPages, h, List.length_nil, Nat.zero_add]
      cases hipp : s.itemsPerPage with
      | zero => simp
      | succ k => exact Nat.div_eq_of_lt (by omega)
    rcases lt_or_le n 1 with hn | hn
    · simp [goToPage, hn]
    · have hgt : n > (totalPages s : Int) := by rw [htp]; omega
      simp [goToPage, hgt]

/-- Witness for the amended claim C3: moving to page 2 of 25 records. -/
theorem goToPage_range_spec_witness :
    goToPage 2 (state25 1) = ({ state25 1 with currentPage := 2 }, true) :=
  (goToPage_range_spec (state25 1) 2).2.1 (by decide)

/-- Claim C4: in every instance state reachable through construction,
data load, `search`, and `goToPage`, the page-state invariant
`1 ≤ currentPage ≤ max(1, ceil(|FilteredView| / itemsPerPage))` holds;
and `currentPage` equals 1 immediately after every `search` call. -/
theorem pageState_invariant {sk : KeySpec} {pe : Bool} {ipp : Nat} {hel : Bool}
    {s : SWIState} (hr : Reachable sk pe ipp hel s) (hipp : 1 ≤ ipp) :
    (1 ≤ s.currentPage ∧ s.currentPage ≤ max 1 (totalPages s)) ∧
    (∀ (s' : SWIState) (q : String), (search q s').currentPage = 1) := by
  constructor
  · induction hr with
    | loaded d =>
      exact ⟨le_refl 1, le_max_left 1 _⟩
    | searched q hr ih =>
      exact ⟨le_refl 1, le_max_left 1 _⟩
    | paged n hr ih =>
      rename_i t
      rw [goToPage]
      split
      · exact ih
      · rename_i hcond
        push_neg at hcond
        obtain ⟨h1, h2⟩ := hcond
        refine ⟨?_, ?_⟩
        · show 1 ≤ n.toNat
          omega
        · show n.toNat ≤ max 1 (totalPages t)
          refine le_trans ?_ (le_max_right 1 _)
          omega
  · intro s' q
    rfl

/-- Witness for claim C4 at a concrete reachable state: load 25 records,
go to page 3. -/
theorem pageState_invariant_witness :
    1 ≤ (goToPage 3 (initState dataset25 (.str "id") true 10 true)).1.currentPage ∧
    (goToPage 3 (initState dataset25 (.str "id") true 10 true)).1.currentPage ≤
      max 1 (totalPages (goToPage 3 (initState dataset25 (.str "id") true 10 true)).1) :=
  (pageState_invariant (Reachable.paged 3 (Reachable.loaded dataset25)) (by decide)).1

/-- Claim C5 is refuted as stated: the payload `[null]` is a non-empty
sequence whose first element is not a Record, so the claim demands a
ShapeError — but the source's check `typeof data[0] !== "object"`
accepts `null` (whose JS typeof is "object") and the load succeeds. -/
theorem loadData_record_check_refuted :
    JSItem.isRecord .itemNull = false ∧
    claimLoadFails (.localArr [.itemNull]) = true ∧
    loadData (.localArr [.itemNull]) = .ok [.itemNull] := by
  refine ⟨by decide, by decide, by decide⟩

/-- Claim C5 (amended): `load` fails exactly when the fetch reports a
non-success status (the error carries the status code and text), the
resolved payload is not an array, or the sequence is non-empty and its
first element is not of JS object type — `null` and array first
elements pass the `typeof` check and are accepted even though they are
not Records. On success, Dataset and FilteredView are both set to the
loaded sequence. -/
theorem loadData_failure_characterization (src : DataSource) :
    ((∃ m, loadData src = .err m) ↔ codeLoadFails src = true) ∧
    (∀ items, loadData src = .ok items →
      applyLoad (loadData src) = some { data := items, filteredData := items }) ∧
    (∀ status text,
      loadData (.remote (.failure status text)) =
        .err ("HTTP " ++ toString status ++ ": " ++ text)) := by
  refine ⟨?_, ?_, fun _ _ => rfl⟩
  · cases src with
    | localArr items =>
      by_cases h : firstNotObject items = true
      · simp [loadData, codeLoadFails, h]
      · simp [loadData, codeLoadFails, h]
    | remote r =>
      cases r with
      | failure st tx => simp [loadData, codeLoadFails]
      | success p =>
        cases p with
        | pNonArray => simp [loadData, codeLoadFails]
        | pArr items =>
          by_cases h : firstNotObject items = true
          · simp [loadData, codeLoadFails, h]
          · simp [loadData, codeLoadFails, h]
  · intro items h
    rw [h]
    rfl

/-- Witness for the amended claim C5: a successful local load sets both
Dataset and FilteredView. -/
theorem loadData_failure_characterization_witness :
    applyLoad (loadData (.localArr [.itemObj zeroRecord])) =
      some { data := [.itemObj zeroRecord], filteredData := [.itemObj zeroRecord] } :=
  (loadData_failure_characterization (.localArr [.itemObj zeroRecord])).2.1
    [.itemObj zeroRecord] (by decide)

/-- Claim C6: `search` never mutates Dataset — after any `search(q)` the
Dataset holds the same Records in the same order — and a successful load
sets FilteredView to a structural copy of the loaded sequence alongside
Dataset, so recomputing FilteredView leaves Dataset unchanged. -/
theorem search_preserves_dataset (s : SWIState) (q : String) :
    (search q s).data = s.data ∧
    (∀ q', (search q' (search q s)).data = s.data) ∧
    (∀ (src : DataSource) (items : List JSItem),
      loadData src = .ok items →
      applyLoad (loadData src) = some { data := items, filteredData := items }) := by
  refine ⟨rfl, fun q' => rfl, fun src items h => by rw [h]; rfl⟩

/-- Witness for claim C6 at a concrete state and query. -/
theorem search_preserves_dataset_witness :
    (search "zzz" zeroState).data = zeroState.data ∧
    applyLoad (loadData (.localArr [])) = some { data := [], filteredData := [] } :=
  ⟨(search_preserves_dataset zeroState "zzz").1,
   (search_preserves_dataset zeroState "zzz").2.2 (.localArr []) [] (by decide)⟩

/-- Claim C7 is refuted as stated: `{ itemsPerPage: -5 }` is a value
`≤ 0`, which the claim says is clamped to 1 or rejected so that the
normalized value is always `≥ 1` — but `itemsPerPage || 10` only
replaces falsy values, and the negative value passes through
unchanged. -/
theorem parsePaginationConfig_clamp_refuted :
    (parsePaginationConfig (.obj none (some (-5)))).itemsPerPage = -5 ∧
    ¬(1 ≤ (parsePaginationConfig (.obj none (some (-5)))).itemsPerPage) := by
  refine ⟨by decide, by decide⟩

/-- Claim C7 (amended): an absent option normalizes to disabled settings
with defaults (itemsPerPage 10, no search keys); a boolean option to
enabled equal to that boolean with the other fields at default; an
object option to enabled true unless explicitly false, with
itemsPerPage defaulting to 10 when absent or 0 (falsy) — but any
nonzero value, negative values included, passes through unchanged, so
the normalized itemsPerPage is only guaranteed `≥ 1` when the supplied
value is positive. -/
theorem config_normalizer_spec :
    (parseSearchConfig .absent = { enabled := false, searchKey := .undefKey }) ∧
    (∀ b, parseSearchConfig (.bool b) = { enabled := b, searchKey := .undefKey }) ∧
    (∀ en sk, ((parseSearchConfig (.obj en sk)).enabled = true ↔
      en ≠ some (.vBool false))) ∧
    (parsePaginationConfig .absent = { enabled := false, itemsPerPage := 10 }) ∧
    (∀ b, parsePaginationConfig (.bool b) = { enabled := b, itemsPerPage := 10 }) ∧
    (∀ en ipp, ((parsePaginationConfig (.obj en ipp)).enabled = true ↔
      en ≠ some (.vBool false))) ∧
    (∀ en, (parsePaginationConfig (.obj en none)).itemsPerPage = 10) ∧
    (∀ en, (parsePaginationConfig (.obj en (some 0))).itemsPerPage = 10) ∧
    (∀ en n, n ≠ 0 → (parsePaginationConfig (.obj en (some n))).itemsPerPage = n) ∧
    (∀ en n, 1 ≤ n → 1 ≤ (parsePaginationConfig (.obj en (some n))).itemsPerPage) := by
  refine ⟨rfl, fun b => rfl, ?_, rfl, fun b => rfl, ?_, fun en => rfl, fun en => rfl,
    ?_, ?_⟩
  · intro en sk
    simp [parseSearchConfig]
  · intro en ipp
    simp [parsePaginationConfig]
  · intro en n h
    simp [parsePaginationConfig, h]
  · intro en n h
    have hne : n ≠ 0 := by omega
    simp [parsePaginationConfig, hne]
    omega

/-- Witness for the amended claim C7: a positive supplied itemsPerPage
is kept and satisfies the bound. -/
theorem config_normalizer_spec_witness :
    (parsePaginationConfig (.obj none (some 7))).itemsPerPage = 7 :=
  config_normalizer_spec.2.2.2.2.2.2.2.2.1 none 7 (by decide)

/-- Claim C8: whenever the current page slice is empty, `render`
produces the empty-state whose message is the no-data message exactly
when Dataset is empty and the no-results message exactly when Dataset
is non-empty; the pagination region is cleared (when one is attached)
and no items are rendered. -/
theorem render_empty_state_spec (s : SWIState) (h : getPaginatedData s = []) :
    render s = .emptyState (if s.data = [] then noDataMessage else noResultsMessage)
      (s.paginationEnabled && s.hasPaginationEl) ∧
    ((if s.data = [] then noDataMessage else noResultsMessage) = noDataMessage ↔
      s.data = []) ∧
    ((if s.data = [] then noDataMessage else noResultsMessage) = noResultsMessage ↔
      s.data ≠ []) ∧
    (∀ slice pd, render s ≠ .items slice pd) := by
  have hne : noDataMessage ≠ noResultsMessage := by decide
  have hlen : (getPaginatedData s).length = 0 := by rw [h]; rfl
  have hmain : render s =
      .emptyState (if s.data = [] then noDataMessage else noResultsMessage)
        (s.paginationEnabled && s.hasPaginationEl) := by
    by_cases hd : s.data = []
    · simp [render, hlen, hd]
    · have : s.data.length ≠ 0 := by
        simpa [List.length_eq_zero] using hd
      simp [render, hlen, hd, this]
  refine ⟨hmain, ?_, ?_, ?_⟩
  · by_cases hd : s.data = [] <;> simp [hd, hne, Ne.symm hne]
  · by_cases hd : s.data = [] <;> simp [hd, hne, Ne.symm hne]
  · intro slice pd
    rw [hmain]
    intro hcontra
    exact RenderOutput.noConfusion hcontra

/-- Witness for claim C8: a non-empty dataset whose query matched
nothing renders the no-results empty state. -/
theorem render_empty_state_spec_witness :
    render emptyFVState =
      .emptyState
        (if emptyFVState.data = [] then noDataMessage else noResultsMessage)
        (emptyFVState.paginationEnabled && emptyFVState.hasPaginationEl) :=
  (render_empty_state_spec emptyFVState (by decide)).1

/-- After one event is pending, a run of follow-up events each arriving
before the pending deadline keeps cancelling and rescheduling, so only
the final value fires. -/
theorem processEvents_pending (wait : Nat) :
    ∀ (evs : List (Nat × String)) (t : Nat) (v : String),
      gapsWithin wait ((t, v) :: evs) = true →
      processEvents wait evs (some (t + wait, v)) = [(evs.getLastD (t, v)).2] := by
  intro evs
  induction evs with
  | nil =>
    intro t v _
    rfl
  | cons e rest ih =>
    obtain ⟨t2, v2⟩ := e
    intro t v hg
    have hgap : t2 < t + wait ∧ gapsWithin wait ((t2, v2) :: rest) = true := by
      simpa [gapsWithin, Bool.and_eq_true] using hg
    simp only [processEvents]
    rw [if_neg (by omega)]
    rw [ih t2 v2 hgap.2]
    rw [List.getLastD_cons]

/-- Claim C9: trailing-edge debounce — for any run of input events each
less than `wait` ticks apart, exactly one `search` executes, with the
value of the last event; and feeding the executed calls into the
(undebounced) `search` transition equals one immediate programmatic
`search` of that value. -/
theorem debounce_trailing_spec (wait t : Nat) (v : String)
    (rest : List (Nat × String))
    (hg : gapsWithin wait ((t, v) :: rest) = true) :
    processEvents wait ((t, v) :: rest) none = [(rest.getLastD (t, v)).2] ∧
    (processEvents wait ((t, v) :: rest) none).length = 1 ∧
    (∀ s : SWIState,
      (processEvents wait ((t, v) :: rest) none).foldl (fun st q => search q st) s =
        search (rest.getLastD (t, v)).2 s) := by
  have h1 : processEvents wait ((t, v) :: rest) none =
      processEvents wait rest (some (t + wait, v)) := rfl
  rw [h1, processEvents_pending wait rest t v hg]
  exact ⟨rfl, rfl, fun s => rfl⟩

/-- Witness for claim C9: three events within 300 ticks execute a single
search with the last value. -/
theorem debounce_trailing_spec_witness :
    processEvents 300 [(0, "a"), (100, "ab"), (200, "abc")] none = ["abc"] :=
  (debounce_trailing_spec 300 0 "a" [(100, "ab"), (200, "abc")] (by decide)).1

/-- Claim C10: a search option of the boolean `true` normalizes to a
configuration with no search key at all (`searchKey` is `undefined`);
consequently `search` looks records up under the property name
"undefined", so for every dataset with no field literally named
"undefined" and every non-blank query, FilteredView comes out empty. -/
theorem search_bool_true_no_matches (s : SWIState) (q : String)
    (hkey : s.searchKey = (parseSearchConfig (.bool true)).searchKey)
    (hdata : ∀ r ∈ s.data, ∀ p ∈ r, p.1 ≠ "undefined")
    (hq : ¬(q = "" ∨ jsTrim q = "")) :
    (parseSearchConfig (.bool true)).searchKey = .undefKey ∧
    (parseSearchConfig (.bool true)).enabled = true ∧
    (search q s).filteredData = [] := by
  refine ⟨rfl, rfl, ?_⟩
  have hk : effectiveKeys s.searchKey = ["undefined"] := by rw [hkey]; rfl
  simp only [search, if_neg hq, hk]
  rw [List.filter_eq_nil_iff]
  intro item hitem
  have hfind : item.find? (fun p => p.1 == "undefined") = none := by
    rw [List.find?_eq_none]
    intro p hp
    simpa using hdata item hitem p hp
  simp [matchesItem, getField, hfind, Value.truthy]

/-- Witness for claim C10: one record with fields "name"/"category", a
`true` search option, and the query "alpha". -/
theorem search_bool_true_no_matches_witness :
    (search "alpha" boolTrueState).filteredData = [] :=
  (search_bool_true_no_matches boolTrueState "alpha" rfl (by decide) (by decide)).2.2

end SWI
